import Mathlib

/-!
Verification of the close-approach query core (filters.py and its
surrounding query contract) against a shallow embedding in Lean.

Python float values are embedded as `PFloat`: either a rational value or
the not-a-number sentinel; every ordered comparison involving the
sentinel is false, as in IEEE semantics used by the source.  Python
optional arguments become `Option`; Python truthiness of an optional
float (`if distance_min:`) is false exactly for `None` and for a zero
value, and true for `nan` (Python treats `float("nan")` as truthy).
Calendar dates are embedded as integers (ordinal days); a datetime
carries its calendar date and a time-of-day component, and `.date()`
becomes the `date` projection.  A Python filter returns either the
approach object itself (truthy) or the boolean `False`; this sum is the
type `PyVal` with its truthiness function.
-/

/-- A Python float as used by the source: a rational value or NaN. -/
inductive PFloat where
  | nan : PFloat
  | val : ℚ → PFloat
deriving DecidableEq

/-- Embedding of Python `>=` on floats: false whenever either side is NaN. -/
def PFloat.ge : PFloat → PFloat → Bool
  | .val a, .val b => decide (b ≤ a)
  | _, _ => false

/-- Embedding of Python `<=` on floats: false whenever either side is NaN. -/
def PFloat.le : PFloat → PFloat → Bool
  | .val a, .val b => decide (a ≤ b)
  | _, _ => false

/-- Python truthiness of a float: zero is falsy, every other value (NaN
included) is truthy. -/
def PFloat.truthy : PFloat → Bool
  | .nan => true
  | .val q => decide (q ≠ 0)

/-- Python truthiness of an optional float: `None` and zero are falsy. -/
def pyTruthyFloat : Option PFloat → Bool
  | none => false
  | some v => v.truthy

/-- Python truthiness of an optional date: date objects are always
truthy, so this is exactly presence. -/
def pyTruthyDate : Option ℤ → Bool
  | none => false
  | some _ => true

/-- A datetime value: its calendar date (ordinal day number) and a
time-of-day component.  `x.time.date` embeds Python `x.time.date()`. -/
structure DateTime where
  date : ℤ
  timeOfDay : ℕ
deriving DecidableEq

/-- A near-Earth object as the filter code reads it. -/
structure NearEarthObject where
  designation : String
  name : Option String
  diameter : PFloat
  hazardous : Bool
deriving DecidableEq

/-- A close approach with its resolved NEO reference. -/
structure CloseApproach where
  time : DateTime
  distance : PFloat
  velocity : PFloat
  neo : NearEarthObject
deriving DecidableEq

/-- The value a Python filter returns: the approach object itself, or a
boolean. -/
inductive PyVal where
  | obj : CloseApproach → PyVal
  | pybool : Bool → PyVal
deriving DecidableEq

/-- Python truthiness of a filter result: objects are truthy, booleans
are themselves. -/
def PyVal.truthy : PyVal → Bool
  | .obj _ => true
  | .pybool b => b

/-- One Python line `if cond: filters.append(f)`: contributes `[f]` when
the condition is truthy and nothing otherwise. -/
def appendIf (cond : Bool) (f : CloseApproach → PyVal) :
    List (CloseApproach → PyVal) :=
  if cond then [f] else []

/-- Embedding of `create_filters` from filters.py.  Each clause mirrors
one `if ...: filters.append(lambda x: x if ... else False)` line of the
source, in source order; a numeric bound is tested for Python truthiness
and a date bound for presence, and each lambda closes over its bound. -/
def create_filters (date : Option ℤ) (start_date : Option ℤ)
    (end_date : Option ℤ) (distance_min : Option PFloat)
    (distance_max : Option PFloat) (velocity_min : Option PFloat)
    (velocity_max : Option PFloat) (diameter_min : Option PFloat)
    (diameter_max : Option PFloat) (hazardous : Option Bool) :
    List (CloseApproach → PyVal) :=
  appendIf (pyTruthyFloat distance_min)
    (fun x => if x.distance.ge (distance_min.getD PFloat.nan)
              then PyVal.obj x else PyVal.pybool false)
  ++ appendIf (pyTruthyFloat distance_max)
    (fun x => if x.distance.le (distance_max.getD PFloat.nan)
              then PyVal.obj x else PyVal.pybool false)
  ++ appendIf (pyTruthyFloat velocity_min)
    (fun x => if x.velocity.ge (velocity_min.getD PFloat.nan)
              then PyVal.obj x else PyVal.pybool false)
  ++ appendIf (pyTruthyFloat velocity_max)
    (fun x => if x.velocity.le (velocity_max.getD PFloat.nan)
              then PyVal.obj x else PyVal.pybool false)
  ++ appendIf hazardous.isSome
    (fun x => if x.neo.hazardous == hazardous.getD false
              then PyVal.obj x else PyVal.pybool false)
  ++ appendIf (pyTruthyFloat diameter_min)
    (fun x => if x.neo.diameter.ge (diameter_min.getD PFloat.nan)
              then PyVal.obj x else PyVal.pybool false)
  ++ appendIf (pyTruthyFloat diameter_max)
    (fun x => if x.neo.diameter.le (diameter_max.getD PFloat.nan)
              then PyVal.obj x else PyVal.pybool false)
  ++ appendIf (pyTruthyDate date)
    (fun x => if x.time.date == date.getD 0
              then PyVal.obj x else PyVal.pybool false)
  ++ appendIf (pyTruthyDate start_date)
    (fun x => if decide (start_date.getD 0 ≤ x.time.date)
              then PyVal.obj x else PyVal.pybool false)
  ++ appendIf (pyTruthyDate end_date)
    (fun x => if decide (x.time.date ≤ end_date.getD 0)
              then PyVal.obj x else PyVal.pybool false)

/-- Embedding of `itertools.islice(iterator, n)` on a finite sequence:
the first `n` elements. -/
def islice (l : List α) (n : ℕ) : List α := l.take n

/-- Embedding of `limit` from filters.py: if `n` is 0 or `None` the
sequence is returned unchanged, otherwise it is sliced to `n` items. -/
def limit (iterator : List α) (n : Option ℕ) : List α :=
  if n = some 0 ∨ n = none then iterator
  else islice iterator (n.getD 0)

/-- Modelled from the spec: an approach is yielded by the query when all
predicates pass, that is when every filter result is truthy. -/
def passesAll (filters : List (CloseApproach → PyVal))
    (x : CloseApproach) : Bool :=
  filters.all (fun f => (f x).truthy)

/-- Modelled from the spec: the `query` method of `NEODatabase` is not
among the provided sources.  Per the spec it iterates the approach
collection in its original order, yields each approach for which every
filter passes, and truncates the stream to at most `limit` items. -/
def query (filters : List (CloseApproach → PyVal))
    (approaches : List CloseApproach) (lim : Option ℕ) :
    List CloseApproach :=
  limit (approaches.filter (fun a => passesAll filters a)) lim

/-- The conjunction of the individual criterion predicates, one conjunct
per criterion in source order: an inactive criterion contributes `true`,
an active one contributes its comparison against the bound. -/
def criteriaConj (date : Option ℤ) (start_date : Option ℤ)
    (end_date : Option ℤ) (distance_min : Option PFloat)
    (distance_max : Option PFloat) (velocity_min : Option PFloat)
    (velocity_max : Option PFloat) (diameter_min : Option PFloat)
    (diameter_max : Option PFloat) (hazardous : Option Bool)
    (x : CloseApproach) : Bool :=
  (!pyTruthyFloat distance_min
      || x.distance.ge (distance_min.getD PFloat.nan))
  && (!pyTruthyFloat distance_max
      || x.distance.le (distance_max.getD PFloat.nan))
  && (!pyTruthyFloat velocity_min
      || x.velocity.ge (velocity_min.getD PFloat.nan))
  && (!pyTruthyFloat velocity_max
      || x.velocity.le (velocity_max.getD PFloat.nan))
  && (!hazardous.isSome || x.neo.hazardous == hazardous.getD false)
  && (!pyTruthyFloat diameter_min
      || x.neo.diameter.ge (diameter_min.getD PFloat.nan))
  && (!pyTruthyFloat diameter_max
      || x.neo.diameter.le (diameter_max.getD PFloat.nan))
  && (!pyTruthyDate date || x.time.date == date.getD 0)
  && (!pyTruthyDate start_date || decide (start_date.getD 0 ≤ x.time.date))
  && (!pyTruthyDate end_date || decide (x.time.date ≤ end_date.getD 0))

/-! ### Basic lemmas about the embedding -/

theorem passesAll_append (l₁ l₂ : List (CloseApproach → PyVal))
    (x : CloseApproach) :
    passesAll (l₁ ++ l₂) x = (passesAll l₁ x && passesAll l₂ x) := by
  simp [passesAll]

theorem passesAll_appendIf (c : Bool) (f : CloseApproach → PyVal)
    (x : CloseApproach) :
    passesAll (appendIf c f) x = (!c || (f x).truthy) := by
  cases c <;> simp [appendIf, passesAll]

theorem truthy_ifFilter (p : Prop) [Decidable p] (x : CloseApproach) :
    PyVal.truthy (if p then PyVal.obj x else PyVal.pybool false)
      = decide p := by
  by_cases h : p <;> simp [h, PyVal.truthy]

/-- Evaluating a filter collection built by `create_filters` is exactly
the conjunction of the individual criterion predicates. -/
theorem passesAll_create_filters (d sd ed : Option ℤ)
    (dmin dmax vmin vmax dimin dimax : Option PFloat)
    (hz : Option Bool) (x : CloseApproach) :
    passesAll (create_filters d sd ed dmin dmax vmin vmax dimin dimax hz) x
      = criteriaConj d sd ed dmin dmax vmin vmax dimin dimax hz x := by
  simp only [create_filters, criteriaConj, passesAll_append,
    passesAll_appendIf, truthy_ifFilter, decide_eq_true_eq,
    Bool.decide_coe]

/-- Permuting a list does not change whether all its elements satisfy a
boolean predicate. -/
theorem all_eq_of_perm {α : Type} {l₁ l₂ : List α} (h : l₁.Perm l₂)
    (p : α → Bool) : l₁.all p = l₂.all p := by
  induction h with
  | nil => rfl
  | cons a h ih => simp [List.all_cons, ih]
  | swap a b l => simp [List.all_cons, Bool.and_left_comm]
  | trans h₁ h₂ ih₁ ih₂ => rw [ih₁, ih₂]

/-- A member of an `appendIf` chunk is the appended filter itself. -/
theorem eq_of_mem_appendIf {c : Bool} {g f : CloseApproach → PyVal}
    (h : f ∈ appendIf c g) : f = g := by
  cases c
  · simp [appendIf] at h
  · simpa [appendIf] using h

/-- Every filter produced by `create_filters` tests a boolean condition
on the approach and returns the approach itself when it holds and the
boolean `False` otherwise. -/
theorem mem_create_filters_shape (d sd ed : Option ℤ)
    (dmin dmax vmin vmax dimin dimax : Option PFloat) (hz : Option Bool)
    (f : CloseApproach → PyVal)
    (hf : f ∈ create_filters d sd ed dmin dmax vmin vmax dimin dimax hz) :
    ∃ c : CloseApproach → Bool,
      f = fun x => if c x then PyVal.obj x else PyVal.pybool false := by
  simp only [create_filters, List.append_assoc, List.mem_append] at hf
  rcases hf with hf | hf | hf | hf | hf | hf | hf | hf | hf | hf
  · exact ⟨fun x => x.distance.ge (dmin.getD PFloat.nan), eq_of_mem_appendIf hf⟩
  · exact ⟨fun x => x.distance.le (dmax.getD PFloat.nan), eq_of_mem_appendIf hf⟩
  · exact ⟨fun x => x.velocity.ge (vmin.getD PFloat.nan), eq_of_mem_appendIf hf⟩
  · exact ⟨fun x => x.velocity.le (vmax.getD PFloat.nan), eq_of_mem_appendIf hf⟩
  · exact ⟨fun x => x.neo.hazardous == hz.getD false, eq_of_mem_appendIf hf⟩
  · exact ⟨fun x => x.neo.diameter.ge (dimin.getD PFloat.nan), eq_of_mem_appendIf hf⟩
  · exact ⟨fun x => x.neo.diameter.le (dimax.getD PFloat.nan), eq_of_mem_appendIf hf⟩
  · exact ⟨fun x => x.time.date == d.getD 0, eq_of_mem_appendIf hf⟩
  · exact ⟨fun x => decide (sd.getD 0 ≤ x.time.date), eq_of_mem_appendIf hf⟩
  · exact ⟨fun x => decide (x.time.date ≤ ed.getD 0), eq_of_mem_appendIf hf⟩

/-! ### Sample data for concrete evaluations -/

/-- A sample NEO with all attributes known. -/
def eros : NearEarthObject :=
  { designation := "2000433", name := some "Eros",
    diameter := PFloat.val (421 / 25), hazardous := false }

/-- A sample close approach of `eros`. -/
def sampleApproach : CloseApproach :=
  { time := { date := 7305, timeOfDay := 0 },
    distance := PFloat.val (3 / 10), velocity := PFloat.val 5, neo := eros }

/-- A sample NEO whose diameter is unknown (NaN) and which is flagged
hazardous. -/
def unknownNeo : NearEarthObject :=
  { designation := "X1", name := none, diameter := PFloat.nan,
    hazardous := true }

/-- A sample close approach whose NEO has an unknown diameter. -/
def nanApproach : CloseApproach :=
  { time := { date := 7400, timeOfDay := 12 },
    distance := PFloat.val 1, velocity := PFloat.val 2, neo := unknownNeo }

/-! ### Claim theorems -/

/-- C3: `limit(seq, 0)` and `limit(seq, None)` both return the sequence
unchanged: every element of the input is produced, in its original
order, with no truncation. -/
theorem limit_zero_and_none_are_noops {α : Type} (seq : List α) :
    limit seq (some 0) = seq ∧ limit seq none = seq := by
  constructor <;> simp [limit]

/-- C4: for `n > 0`, `limit(seq, n)` is exactly the first
`min n (length seq)` elements of `seq` in their original order, hence at
most `n` elements and a prefix of the input. -/
theorem limit_pos_is_first_n {α : Type} (seq : List α) (n : ℕ) (h : 0 < n) :
    limit seq (some n) = seq.take n
    ∧ (limit seq (some n)).length = min n seq.length
    ∧ limit seq (some n) <+: seq := by
  have hne : n ≠ 0 := Nat.pos_iff_ne_zero.mp h
  refine ⟨?_, ?_, ?_⟩ <;>
    simp [limit, islice, hne, List.length_take, List.take_prefix]

/-- Witness for C4 at `seq = [10, 20, 30]` and `n = 2`. -/
theorem limit_pos_is_first_n_witness :
    0 < 2
    ∧ (limit [(10 : ℚ), 20, 30] (some 2) = [(10 : ℚ), 20, 30].take 2
      ∧ (limit [(10 : ℚ), 20, 30] (some 2)).length
          = min 2 [(10 : ℚ), 20, 30].length
      ∧ limit [(10 : ℚ), 20, 30] (some 2) <+: [(10 : ℚ), 20, 30]) :=
  ⟨by decide, limit_pos_is_first_n [10, 20, 30] 2 (by decide)⟩

/-- C9: with every criterion absent, `create_filters` returns the empty
collection, every approach satisfies all (zero) filters, and a query
with these filters and no limit passes through all approaches in their
original order. -/
theorem no_criteria_matches_everything (approaches : List CloseApproach)
    (x : CloseApproach) :
    create_filters none none none none none none none none none none = []
    ∧ passesAll (create_filters none none none none none none none none
        none none) x = true
    ∧ query (create_filters none none none none none none none none none
        none) approaches none = approaches := by
  refine ⟨rfl, rfl, ?_⟩
  simp [query, limit, passesAll, create_filters, appendIf, pyTruthyFloat,
    pyTruthyDate]

/-- C1 counterexample: every numeric criterion supplied with a bound of
literal zero produces NO filter at all; the returned collection is
empty, so a zero bound is not distinguishable from an unset one. -/
theorem zero_bounds_produce_no_filters :
    create_filters none none none (some (PFloat.val 0))
      (some (PFloat.val 0)) (some (PFloat.val 0)) (some (PFloat.val 0))
      (some (PFloat.val 0)) (some (PFloat.val 0)) none = [] := by
  norm_num [create_filters, appendIf, pyTruthyFloat, PFloat.truthy,
    pyTruthyDate]

/-- C1 amended: a numeric bound of literal zero is treated exactly like
an unset bound, for each of the six numeric criteria: the produced
filter collection is the same as with the bound absent. -/
theorem zero_bound_same_as_unset (d sd ed : Option ℤ)
    (dmin dmax vmin vmax dimin dimax : Option PFloat) (hz : Option Bool) :
    create_filters d sd ed (some (PFloat.val 0)) dmax vmin vmax dimin dimax hz
      = create_filters d sd ed none dmax vmin vmax dimin dimax hz
    ∧ create_filters d sd ed dmin (some (PFloat.val 0)) vmin vmax dimin dimax hz
      = create_filters d sd ed dmin none vmin vmax dimin dimax hz
    ∧ create_filters d sd ed dmin dmax (some (PFloat.val 0)) vmax dimin dimax hz
      = create_filters d sd ed dmin dmax none vmax dimin dimax hz
    ∧ create_filters d sd ed dmin dmax vmin (some (PFloat.val 0)) dimin dimax hz
      = create_filters d sd ed dmin dmax vmin none dimin dimax hz
    ∧ create_filters d sd ed dmin dmax vmin vmax (some (PFloat.val 0)) dimax hz
      = create_filters d sd ed dmin dmax vmin vmax none dimax hz
    ∧ create_filters d sd ed dmin dmax vmin vmax dimin (some (PFloat.val 0)) hz
      = create_filters d sd ed dmin dmax vmin vmax dimin none hz := by
  refine ⟨?_, ?_, ?_, ?_, ?_, ?_⟩ <;>
    norm_num [create_filters, appendIf, pyTruthyFloat, PFloat.truthy]

/-- C2: the hazardous criterion is tri-state.  With `hazardous` absent
the produced collection imposes no constraint on the hazardous flag
(flipping the flag of the linked NEO never changes whether an approach
passes); with `hazardous = true` the single produced filter passes
exactly the approaches whose NEO is hazardous, and with
`hazardous = false` exactly those whose NEO is not. -/
theorem hazardous_criterion_tristate (d sd ed : Option ℤ)
    (dmin dmax vmin vmax dimin dimax : Option PFloat)
    (x : CloseApproach) (b : Bool) :
    passesAll (create_filters d sd ed dmin dmax vmin vmax dimin dimax none)
        { x with neo := { x.neo with hazardous := b } }
      = passesAll (create_filters d sd ed dmin dmax vmin vmax dimin dimax
          none) x
    ∧ passesAll (create_filters none none none none none none none none
        none (some true)) x = x.neo.hazardous
    ∧ passesAll (create_filters none none none none none none none none
        none (some false)) x = !x.neo.hazardous := by
  refine ⟨?_, ?_, ?_⟩ <;>
    simp [passesAll_create_filters, criteriaConj, pyTruthyFloat,
      pyTruthyDate]

/-- C5: evaluating the whole filter collection equals the conjunction of
the individual criterion predicates, and the outcome is invariant under
any permutation of the collection. -/
theorem filters_are_pure_conjunction (d sd ed : Option ℤ)
    (dmin dmax vmin vmax dimin dimax : Option PFloat) (hz : Option Bool)
    (x : CloseApproach) (l : List (CloseApproach → PyVal))
    (hperm : l.Perm (create_filters d sd ed dmin dmax vmin vmax dimin
      dimax hz)) :
    passesAll (create_filters d sd ed dmin dmax vmin vmax dimin dimax hz) x
      = criteriaConj d sd ed dmin dmax vmin vmax dimin dimax hz x
    ∧ passesAll l x
      = passesAll (create_filters d sd ed dmin dmax vmin vmax dimin dimax
          hz) x := by
  refine ⟨passesAll_create_filters d sd ed dmin dmax vmin vmax dimin
    dimax hz x, ?_⟩
  exact all_eq_of_perm hperm _

/-- The filter collection for `distance_min = 1, hazardous = true`, with
its two elements written out in swapped order. -/
def swappedSample : List (CloseApproach → PyVal) :=
  [fun x => if x.neo.hazardous == true then PyVal.obj x
            else PyVal.pybool false,
   fun x => if x.distance.ge (PFloat.val 1) then PyVal.obj x
            else PyVal.pybool false]

/-- The swapped two-element list is a permutation of the produced
filter collection. -/
theorem swappedSample_perm :
    swappedSample.Perm (create_filters none none none
      (some (PFloat.val 1)) none none none none none (some true)) := by
  have hlist : create_filters none none none (some (PFloat.val 1)) none
      none none none none (some true)
      = [fun x => if x.distance.ge (PFloat.val 1) then PyVal.obj x
                  else PyVal.pybool false,
         fun x => if x.neo.hazardous == true then PyVal.obj x
                  else PyVal.pybool false] := by
    norm_num [create_filters, appendIf, pyTruthyFloat, PFloat.truthy,
      pyTruthyDate]
  rw [hlist]
  exact List.Perm.swap _ _ _

/-- Witness for C5 at concrete criteria, approach and permutation. -/
theorem filters_are_pure_conjunction_witness :
    passesAll (create_filters none none none (some (PFloat.val 1)) none
        none none none none (some true)) sampleApproach
      = criteriaConj none none none (some (PFloat.val 1)) none none none
          none none (some true) sampleApproach
    ∧ passesAll swappedSample sampleApproach
      = passesAll (create_filters none none none (some (PFloat.val 1))
          none none none none none (some true)) sampleApproach :=
  filters_are_pure_conjunction none none none (some (PFloat.val 1)) none
    none none none none (some true) sampleApproach swappedSample
    swappedSample_perm

/-- C7: the three date criteria compare only the calendar-date component
of the time of an approach: equality for `date`, greater-or-equal for
`start_date` and less-or-equal for `end_date`, regardless of the
time-of-day component. -/
theorem date_criteria_use_calendar_date (d : ℤ) (x : CloseApproach) :
    passesAll (create_filters (some d) none none none none none none none
        none none) x = (x.time.date == d)
    ∧ passesAll (create_filters none (some d) none none none none none
        none none none) x = decide (d ≤ x.time.date)
    ∧ passesAll (create_filters none none (some d) none none none none
        none none none) x = decide (x.time.date ≤ d) := by
  refine ⟨?_, ?_, ?_⟩ <;>
    simp [passesAll_create_filters, criteriaConj, pyTruthyFloat,
      pyTruthyDate]

/-- C6: when the diameter of the linked NEO is the NaN sentinel, the
filters produced for an active `diameter_min` and an active
`diameter_max` both evaluate to the boolean `False` (a non-match):
comparisons against NaN are always false.  Evaluation is a total
function in this embedding, so no error can be raised. -/
theorem nan_diameter_never_matches (bmin bmax : PFloat)
    (hmin : bmin.truthy = true) (hmax : bmax.truthy = true)
    (x : CloseApproach) (hx : x.neo.diameter = PFloat.nan) :
    (create_filters none none none none none none none (some bmin)
      (some bmax) none).length = 2
    ∧ ∀ f ∈ create_filters none none none none none none none (some bmin)
        (some bmax) none, f x = PyVal.pybool false := by
  constructor
  · simp [create_filters, appendIf, pyTruthyFloat, pyTruthyDate, hmin,
      hmax]
  · intro f hf
    simp [create_filters, appendIf, pyTruthyFloat, pyTruthyDate, hmin,
      hmax] at hf
    rcases hf with hf | hf <;> subst hf <;>
      simp [hx, PFloat.ge, PFloat.le]

/-- Witness for C6 at concrete bounds and the NaN-diameter approach. -/
theorem nan_diameter_never_matches_witness :
    ((PFloat.val 1).truthy = true ∧ (PFloat.val 2).truthy = true
      ∧ nanApproach.neo.diameter = PFloat.nan)
    ∧ ((create_filters none none none none none none none
          (some (PFloat.val 1)) (some (PFloat.val 2)) none).length = 2
      ∧ ∀ f ∈ create_filters none none none none none none none
          (some (PFloat.val 1)) (some (PFloat.val 2)) none,
          f nanApproach = PyVal.pybool false) :=
  ⟨⟨by decide, by decide, rfl⟩,
    nan_diameter_never_matches (PFloat.val 1) (PFloat.val 2) (by decide)
      (by decide) nanApproach rfl⟩

/-- C8: with nonzero bounds whose minimum exceeds the maximum, the two
produced filters for the same attribute can never both pass: no approach
satisfies the collection, for the distance, velocity and diameter
criteria alike.  Both filter construction and evaluation are total
functions here, so nothing is raised. -/
theorem min_above_max_matches_nothing (bmin bmax : ℚ) (h1 : bmin ≠ 0)
    (h2 : bmax ≠ 0) (hlt : bmax < bmin) (x : CloseApproach) :
    passesAll (create_filters none none none (some (PFloat.val bmin))
      (some (PFloat.val bmax)) none none none none none) x = false
    ∧ passesAll (create_filters none none none none none
        (some (PFloat.val bmin)) (some (PFloat.val bmax)) none none none)
        x = false
    ∧ passesAll (create_filters none none none none none none none
        (some (PFloat.val bmin)) (some (PFloat.val bmax)) none) x
        = false := by
  have key : ∀ v : PFloat,
      (v.ge (PFloat.val bmin) && v.le (PFloat.val bmax)) = false := by
    intro v
    cases v with
    | nan => rfl
    | val q =>
      by_cases hq : bmin ≤ q
      · have hq2 : ¬ q ≤ bmax := by linarith
        simp [PFloat.ge, PFloat.le, hq2]
      · simp [PFloat.ge, PFloat.le, hq]
  refine ⟨?_, ?_, ?_⟩ <;>
    simp [passesAll_create_filters, criteriaConj, pyTruthyFloat,
      pyTruthyDate, PFloat.truthy, h1, h2, key]

/-- Witness for C8 at `bmin = 2`, `bmax = 1` and a concrete approach. -/
theorem min_above_max_matches_nothing_witness :
    ((2 : ℚ) ≠ 0 ∧ (1 : ℚ) ≠ 0 ∧ (1 : ℚ) < 2)
    ∧ (passesAll (create_filters none none none (some (PFloat.val 2))
        (some (PFloat.val 1)) none none none none none) sampleApproach
        = false
      ∧ passesAll (create_filters none none none none none
          (some (PFloat.val 2)) (some (PFloat.val 1)) none none none)
          sampleApproach = false
      ∧ passesAll (create_filters none none none none none none none
          (some (PFloat.val 2)) (some (PFloat.val 1)) none) sampleApproach
          = false) :=
  ⟨⟨by norm_num, by norm_num, by norm_num⟩,
    min_above_max_matches_nothing 2 1 (by norm_num) (by norm_num)
      (by norm_num) sampleApproach⟩

/-- C10: every filter produced by `create_filters`, applied to any
approach, returns either the approach object itself (and is then truthy)
or the boolean `False` (and is then falsy) — never the boolean `True`. -/
theorem filter_results_are_approach_or_false (d sd ed : Option ℤ)
    (dmin dmax vmin vmax dimin dimax : Option PFloat) (hz : Option Bool)
    (x : CloseApproach) :
    (create_filters d sd ed dmin dmax vmin vmax dimin dimax hz).all
      (fun f => (f x != PyVal.pybool true)
        && ((f x == PyVal.obj x && (f x).truthy)
            || (f x == PyVal.pybool false && !(f x).truthy))) = true := by
  rw [List.all_eq_true]
  intro f hf
  obtain ⟨c, rfl⟩ :=
    mem_create_filters_shape d sd ed dmin dmax vmin vmax dimin dimax hz
      f hf
  by_cases hc : c x = true <;> simp [hc, PyVal.truthy]
